import Mathlib

/-!
Shallow embedding of the oauth2c client core (package `oauth2`):
`src/internal/oauth2/request.go` (Request, AuthenticateClient, Get, ParseJARM)
and the token/authorization/callback file (RequestAuthorization, WaitForCallback,
TokenResponse, RequestToken).  External collaborators (go-jose JWT parsing,
encoding/json, net/url parsing, the shortuuid generator, the HTTP transport)
are modelled as explicit oracle parameters or small executable models.
-/

namespace OAuth2C

/-- Go errors are opaque values; we model them by their message strings. -/
abbrev GoError := String

/-- Opaque JWT / key / certificate handles for the go-jose oracle. -/
abbrev Token := String

abbrev NestedToken := String

abbrev KeyMaterial := String

abbrev Cert := String

/-- A JSON-compatible value as stored in `map[string]interface\x7b\x7d` claim maps
and decoded from JSON bodies. -/
inductive JValue where
  | str : String → JValue
  | num : Int → JValue
  | jbool : Bool → JValue
  | jnull : JValue
deriving Repr, DecidableEq

/-- Go `url.Values` / form data: an association list with unique keys
(`Set` replaces, maps are unordered so we only compare through `formGet`
and key membership). -/
abbrev Form := List (String × String)

/-- `url.Values.Get`: first value for the key, `""` when absent. -/
def formGet : Form → String → String
  | [], _ => ""
  | (k, v) :: rest, key => if k = key then v else formGet rest key

/-- `url.Values.Set`: replace any binding for `key` by the single `value`. -/
def formSet (f : Form) (key value : String) : Form :=
  f.filter (fun kv => kv.1 ≠ key) ++ [(key, value)]

/-- Lookup in a claim map (`map[string]interface\x7b\x7d`). -/
def claimGet : List (String × JValue) → String → Option JValue
  | [], _ => none
  | (k, v) :: rest, key => if k = key then some v else claimGet rest key

/-- Go `*url.URL`, reduced to the parts the core reads: an opaque base
(scheme, host, path) and the parsed query (`u.Query()`). -/
structure URL where
  base : String
  query : Form
deriving Repr, DecidableEq

/-- `Request` from `src/internal/oauth2/request.go`.  `URL` is a Go pointer,
hence `Option` (`none` = nil); `Key` and `Cert` are nilable interface /
pointer fields. -/
structure Request where
  Method : String := ""
  URL : Option URL := none
  Headers : List (String × List String) := []
  Form : Form := []
  JARM : List (String × JValue) := []
  Key : Option KeyMaterial := none
  Cert : Option Cert := none
deriving Repr, DecidableEq

/-- `ClientConfig` from the token file. -/
structure ClientConfig where
  IssuerURL : String := ""
  ClientID : String := ""
  ClientSecret : String := ""
  GrantType : String := ""
  AuthMethod : String := ""
deriving Repr, DecidableEq

/-- Modelled from the spec: `ServerConfig` is not under `src/`; the spec
describes it as provider metadata with authorization endpoint, token
endpoint, mutual-TLS token endpoint and a JWKS location. -/
structure ServerConfig where
  AuthorizationEndpoint : String := ""
  TokenEndpoint : String := ""
  MTLSTokenEndpoint : String := ""
  JWKSURI : String := ""
deriving Repr, DecidableEq

/-- `Error` is repository code not under `src/`; its fields are fully
determined by its construction site in `WaitForCallback`
(`ErrorCode`, `Description`, `Hint`, `TraceID`). -/
structure Error where
  ErrorCode : String := ""
  Description : String := ""
  Hint : String := ""
  TraceID : String := ""
deriving Repr, DecidableEq

/-! Grant-type and auth-method constants (the commented-out constants in the
token file fix the exact strings of the extra methods used by
`AuthenticateClient`). -/

def AuthorizationCodeGrantType : String := "authorization_code"

def ClientCredentialsGrantType : String := "client_credentials"

def ClientSecretBasicAuthMethod : String := "client_secret_basic"

def ClientSecretPostAuthMethod : String := "client_secret_post"

def ClientSecretJwtAuthMethod : String := "client_secret_jwt"

def PrivateKeyJwtAuthMethod : String := "private_key_jwt"

def SelfSignedTLSAuthMethod : String := "self_signed_tls_client_auth"

def TLSClientAuthMethod : String := "tls_client_auth"

def NoneAuthMethod : String := "none"

/-- Modelled from the spec: the JWT-bearer client-assertion type URN set by
the JWT auth methods (`JwtBearerClientAssertion` is not under `src/`). -/
def JwtBearerClientAssertion : String :=
  "urn:ietf:params:oauth:client-assertion-type:jwt-bearer"

/-- Which signer `AuthenticateClient` asks `SignJWT` for: the symmetric
client-secret signer or the JWKS-resolved asymmetric signer. -/
inductive SignerKind where
  | secretSigner
  | jwkSigner
deriving Repr, DecidableEq

/-- Result triple of Go `SignJWT(claims, signer) (string, interface\x7b\x7d, error)`.
`SignJWT` is repository code not under `src/`, so it is an oracle parameter:
the assertion string, the key material (assigned to `r.Key` even on the
error path, as in the Go multi-assignment), and the error. -/
structure SignResult where
  assertion : String := ""
  key : Option KeyMaterial := none
  err : Option GoError := none
deriving Repr, DecidableEq

/-- The slice of `*http.Client` that `AuthenticateClient` reads:
`transportLeaf = some pc` models a transport that is an `*http.Transport`
with at least one configured certificate, `pc` being the result of
`x509.ParseCertificate` on its leaf (`none` inside = parse failure, whose
error the Go code discards); `transportLeaf = none` models any other
transport, in which case `r.Cert` is left untouched. -/
structure HTTPClient where
  transportLeaf : Option (Option Cert) := none

/-- `(*Request).AuthenticateClient` from `src/internal/oauth2/request.go`,
with `SignJWT` supplied as an oracle.  Returns the mutated request, the
endpoint actually to be used, and the error. -/
def authenticateClient (sign : SignerKind → SignResult) (hc : HTTPClient)
    (r : Request) (endpoint mtlsEndpoint : String)
    (cconfig : ClientConfig) (_sconfig : ServerConfig) :
    Request × String × Option GoError :=
  if cconfig.AuthMethod = ClientSecretPostAuthMethod then
    ({ r with Form := formSet (formSet r.Form "client_id" cconfig.ClientID)
                        "client_secret" cconfig.ClientSecret },
     endpoint, none)
  else if cconfig.AuthMethod = ClientSecretJwtAuthMethod then
    let res := sign SignerKind.secretSigner
    match res.err with
    | some e => ({ r with Key := res.key }, endpoint, some e)
    | none =>
      ({ r with Key := res.key,
                Form := formSet (formSet r.Form "client_assertion_type"
                          JwtBearerClientAssertion)
                          "client_assertion" res.assertion },
       endpoint, none)
  else if cconfig.AuthMethod = PrivateKeyJwtAuthMethod then
    let res := sign SignerKind.jwkSigner
    match res.err with
    | some e => ({ r with Key := res.key }, endpoint, some e)
    | none =>
      ({ r with Key := res.key,
                Form := formSet (formSet r.Form "client_assertion_type"
                          JwtBearerClientAssertion)
                          "client_assertion" res.assertion },
       endpoint, none)
  else if cconfig.AuthMethod = TLSClientAuthMethod ∨
          cconfig.AuthMethod = SelfSignedTLSAuthMethod then
    let r1 := { r with Form := formSet r.Form "client_id" cconfig.ClientID }
    match hc.transportLeaf with
    | some pc => ({ r1 with Cert := pc }, mtlsEndpoint, none)
    | none => (r1, mtlsEndpoint, none)
  else
    (r, endpoint, none)

/-- `(*Request).Get`.  Go dereferences `r.URL` unconditionally in the second
step, so the result is `none` (nil-pointer panic) when the claim-map lookup
does not produce a string and `URL` is nil. -/
def Request.get (r : Request) (key : String) : Option String :=
  match claimGet r.JARM key with
  | some (JValue.str s) => some s
  | _ =>
    match r.URL with
    | none => none
    | some u =>
      let v := formGet u.query key
      if v ≠ "" then some v else some (formGet r.Form key)

/-- The distinct error values `ParseJARM` can return. -/
inductive JARMError where
  /-- `errors.Wrapf(multierror.Append(err, err2), "failed to parse JARM response")`:
  both underlying parse failures are carried. -/
  | combinedParse (nestedErr flatErr : GoError)
  /-- `"failed to decrypt encrypted JARM response"` wrapping the decrypt error. -/
  | decryptFailed (e : GoError)
  /-- `errors.New("no encryption key path")`. -/
  | noEncryptionKey
  /-- `errors.New("no signing key path")`. -/
  | noSigningKey
  /-- error returned by `token.Claims(signingKey, &r.JARM)`. -/
  | claimsError (e : GoError)
deriving Repr, DecidableEq

/-- The go-jose surface used by `ParseJARM`, as an oracle:
`jwt.ParseSignedAndEncrypted`, `jwt.ParseSigned`,
`(*NestedJSONWebToken).Decrypt`, and `(*JSONWebToken).Claims` (which
verifies the signature with the key and on success decodes the claims). -/
structure JoseOps where
  parseSignedAndEncrypted : String → Except GoError NestedToken
  parseSigned : String → Except GoError Token
  decrypt : NestedToken → KeyMaterial → Except GoError Token
  claims : Token → KeyMaterial → Except GoError (List (String × JValue))

/-- Shared tail of `ParseJARM` once a (possibly decrypted) signed token is in
hand: the signing-key nil check, then `token.Claims` into `r.JARM`.
`r` has already had its claim map reset. -/
def parseJARMFinish (ops : JoseOps) (r : Request) (token : Token)
    (signingKey : Option KeyMaterial) : Request × Option JARMError :=
  match signingKey with
  | none => (r, some JARMError.noSigningKey)
  | some k =>
    match ops.claims token k with
    | Except.ok cm => ({ r with JARM := cm }, none)
    | Except.error e => (r, some (JARMError.claimsError e))

/-- `(*Request).ParseJARM`.  The outer `Option` is `none` exactly when the
initial `r.Get("response")` dereferences a nil `URL` (a Go panic); otherwise
the pair is the mutated request and the returned error. -/
def parseJARM (ops : JoseOps) (r : Request)
    (signingKey encryptionKey : Option KeyMaterial) :
    Option (Request × Option JARMError) :=
  match r.get "response" with
  | none => none
  | some response =>
    let r0 := { r with JARM := [] }
    if response = "" then some (r0, none)
    else
      match ops.parseSignedAndEncrypted response with
      | Except.ok nested =>
        match encryptionKey with
        | some ek =>
          match ops.decrypt nested ek with
          | Except.ok token => some (parseJARMFinish ops r0 token signingKey)
          | Except.error e => some (r0, some (JARMError.decryptFailed e))
        | none => some (r0, some JARMError.noEncryptionKey)
      | Except.error e1 =>
        match ops.parseSigned response with
        | Except.ok token => some (parseJARMFinish ops r0 token signingKey)
        | Except.error e2 => some (r0, some (JARMError.combinedParse e1 e2))

/-! ### Authorization request builder (`RequestAuthorization`) -/

/-- The shortuuid generator, modelled as a stream of identifiers indexed by a
call counter; `gen` is the external random source, `ctr` the next index. -/
structure UUIDGen where
  gen : Nat → String
  ctr : Nat

/-- `shortuuid.New()`: draw the next identifier and advance the stream. -/
def uuidNew (g : UUIDGen) : String × UUIDGen :=
  (g.gen g.ctr, { g with ctr := g.ctr + 1 })

/-- `RequestAuthorization(addr, cconfig, sconfig)` with `url.Parse` supplied
as an oracle (net/url is an external collaborator).  On parse failure the
wrapped error is returned; otherwise the request is a GET whose URL carries
exactly the five query parameters (`values.Encode()` replaces `RawQuery`
wholesale).  `state` and `nonce` are the two next draws of the generator. -/
def requestAuthorization (parseURL : String → Except GoError URL) (g : UUIDGen)
    (addr : String) (cconfig : ClientConfig) (sconfig : ServerConfig) :
    Except GoError Request × UUIDGen :=
  match parseURL sconfig.AuthorizationEndpoint with
  | Except.error e =>
      (Except.error ("failed to parse authorization endpoint: " ++ e), g)
  | Except.ok u =>
      let (st, g1) := uuidNew g
      let (non, g2) := uuidNew g1
      let values : Form :=
        [("client_id", cconfig.ClientID),
         ("response_type", "code"),
         ("redirect_uri", "http://" ++ addr ++ "/callback"),
         ("state", st),
         ("nonce", non)]
      (Except.ok { Method := "GET", URL := some { u with query := values } }, g2)

/-! ### Callback listener (`WaitForCallback`) -/

/-- The process-wide default handler table (`http.DefaultServeMux`), reduced
to its set of registered patterns.  `WaitForCallback` registers through the
package-level `http.HandleFunc`, not on a private mux. -/
def muxHandleFunc (registered : List String) (pattern : String) :
    Option (List String) :=
  if pattern ∈ registered then none else some (pattern :: registered)

/-- The handler registration performed by `WaitForCallback(addr)`:
`http.HandleFunc("/callback", ...)` on the global default mux.  The listening
address plays no role in the registration; `none` models the Go panic
(`http: multiple registrations for /callback`). -/
def waitForCallbackRegistration (_addr : String) (registered : List String) :
    Option (List String) :=
  muxHandleFunc registered "/callback"

/-- What the `/callback` handler produces for one received request: the
captured request, the error assigned to the enclosing named return, the HTTP
status written, and the body written. -/
structure CallbackResult where
  request : Request
  err : Option Error
  status : Nat
  body : String
deriving Repr, DecidableEq

/-- The `/callback` handler body of `WaitForCallback`, as a function of the
received request's method and URL. -/
def callbackHandler (method : String) (u : URL) : CallbackResult :=
  let captured : Request := { Method := method, URL := some u }
  if formGet u.query "error" ≠ "" then
    { request := captured,
      err := some
        { ErrorCode := formGet u.query "error",
          Description := formGet u.query "error_description",
          Hint := formGet u.query "error_hint",
          TraceID := formGet u.query "trace_id" },
      status := 400,
      body := "Authorization failed. You may close this browser." }
  else
    { request := captured, err := none, status := 200,
      body := "Authorization succeeded. You may close this browser." }

/-! ### Token response decoding -/

/-- `TokenResponse` with its JSON field tags; all fields optional with Go
zero values as defaults. -/
structure TokenResponse where
  AccessToken : String := ""
  ExpiresIn : Int := 0
  IDToken : String := ""
  IssuedTokenType : String := ""
  RefreshToken : String := ""
  Scope : String := ""
  TokenType : String := ""
deriving Repr, DecidableEq

/-- The Go zero `TokenResponse` (nothing populated). -/
def zeroTokenResponse : TokenResponse := {}

def openBrace : Char := Char.ofNat 123

def closeBrace : Char := Char.ofNat 125

/-- Skip JSON whitespace. -/
def skipWs : List Char → List Char
  | [] => []
  | c :: rest =>
    if c = ' ' ∨ c = '\n' ∨ c = '\t' ∨ c = '\r' then skipWs rest else c :: rest

/-- Body of a JSON string after the opening quote (no escape sequences; the
protocol strings this model decodes contain none). -/
def jstringBody : List Char → List Char → Option (String × List Char)
  | [], _ => none
  | c :: rest, acc =>
    if c = '"' then some (String.mk acc.reverse, rest)
    else jstringBody rest (c :: acc)

/-- Longest digit run at the head of the input. -/
def takeDigits : List Char → List Char × List Char
  | [] => ([], [])
  | c :: rest =>
    if c.isDigit then
      let (ds, r) := takeDigits rest
      (c :: ds, r)
    else ([], c :: rest)

def digitsToNat (ds : List Char) : Nat :=
  ds.foldl (fun acc c => acc * 10 + (c.toNat - 48)) 0

/-- One JSON scalar value: a string or an integer. -/
def parseJValue (cs : List Char) : Option (JValue × List Char) :=
  match skipWs cs with
  | [] => none
  | c :: rest =>
    if c = '"' then
      match jstringBody rest [] with
      | some (s, r) => some (JValue.str s, r)
      | none => none
    else if c = '-' then
      match takeDigits rest with
      | ([], _) => none
      | (ds, r) => some (JValue.num (-(digitsToNat ds : Int)), r)
    else if c.isDigit then
      match takeDigits (c :: rest) with
      | (ds, r) => some (JValue.num (digitsToNat ds), r)
    else none

/-- `key : value` members of a JSON object, up to and including the closing
brace; fuel bounds the recursion by the input length. -/
def parseMembers (fuel : Nat) (cs : List Char) :
    Option (List (String × JValue) × List Char) :=
  match fuel with
  | 0 => none
  | fuel + 1 =>
    match skipWs cs with
    | [] => none
    | c :: rest =>
      if c = '"' then
        match jstringBody rest [] with
        | none => none
        | some (key, r1) =>
          match skipWs r1 with
          | ':' :: r2 =>
            match parseJValue r2 with
            | none => none
            | some (v, r3) =>
              match skipWs r3 with
              | [] => none
              | d :: r4 =>
                if d = ',' then
                  match parseMembers fuel r4 with
                  | some (ms, r5) => some ((key, v) :: ms, r5)
                  | none => none
                else if d = closeBrace then some ([(key, v)], r4)
                else none
          | _ => none
      else none

/-- A flat JSON object of string/integer fields, the shape of every JSON
body this protocol core decodes (token responses and provider errors).
Models the accepting fragment of `encoding/json`. -/
def parseJSONObject (s : String) : Option (List (String × JValue)) :=
  match skipWs s.data with
  | [] => none
  | c :: rest =>
    if c = openBrace then
      match skipWs rest with
      | [] => none
      | d :: r2 =>
        if d = closeBrace then
          if (skipWs r2).isEmpty then some [] else none
        else
          match parseMembers (s.length + 1) (d :: r2) with
          | some (ms, r3) => if (skipWs r3).isEmpty then some ms else none
          | none => none
    else none

/-- A string-typed JSON field: absent fields keep the zero value, a
non-string value is a type mismatch error, as in `encoding/json`. -/
def getStrField (obj : List (String × JValue)) (key : String) :
    Except GoError String :=
  match claimGet obj key with
  | none => Except.ok ""
  | some (JValue.str s) => Except.ok s
  | some _ => Except.error ("cannot unmarshal field " ++ key)

/-- An integer-typed JSON field. -/
def getIntField (obj : List (String × JValue)) (key : String) :
    Except GoError Int :=
  match claimGet obj key with
  | none => Except.ok 0
  | some (JValue.num n) => Except.ok n
  | some _ => Except.error ("cannot unmarshal field " ++ key)

/-- `json.Unmarshal(body, &response)` for `TokenResponse`, over the flat
JSON model. -/
def unmarshalTokenResponse (body : String) : Except GoError TokenResponse := do
  match parseJSONObject body with
  | none => Except.error "invalid JSON"
  | some obj =>
    let at_ ← getStrField obj "access_token"
    let ei ← getIntField obj "expires_in"
    let idt ← getStrField obj "id_token"
    let itt ← getStrField obj "issued_token_type"
    let rt ← getStrField obj "refresh_token"
    let sc ← getStrField obj "scope"
    let tt ← getStrField obj "token_type"
    Except.ok
      { AccessToken := at_, ExpiresIn := ei, IDToken := idt,
        IssuedTokenType := itt, RefreshToken := rt, Scope := sc,
        TokenType := tt }

/-- Modelled from the spec: `ParseError` is repository code not under `src/`;
per the spec a non-200 token-endpoint response body is parsed as a structured
provider `Error` (a body of \x7b"error":"invalid_grant"\x7d yields
`ErrorCode = "invalid_grant"`). -/
def goParseError (body : String) : Error :=
  match parseJSONObject body with
  | none => {}
  | some obj =>
    { ErrorCode := (fun v => match v with | some (JValue.str s) => s | _ => "")
        (claimGet obj "error"),
      Description := (fun v => match v with | some (JValue.str s) => s | _ => "")
        (claimGet obj "error_description"),
      Hint := (fun v => match v with | some (JValue.str s) => s | _ => "")
        (claimGet obj "error_hint"),
      TraceID := (fun v => match v with | some (JValue.str s) => s | _ => "")
        (claimGet obj "trace_id") }

/-! ### Token exchanger (`RequestToken`) -/

/-- `RequestTokenParams` with its optional fields. -/
structure RequestTokenParams where
  Code : String := ""
  RedirectURL : String := ""
deriving Repr, DecidableEq

/-- `RequestTokenOption` and the two option constructors. -/
abbrev RequestTokenOption := RequestTokenParams → RequestTokenParams

def withAuthorizationCode (code : String) : RequestTokenOption :=
  fun opts => { opts with Code := code }

def withRedirectURL (u : String) : RequestTokenOption :=
  fun opts => { opts with RedirectURL := u }

/-- The option-application loop at the top of `RequestToken`. -/
def applyOptions (opts : List RequestTokenOption) : RequestTokenParams :=
  opts.foldl (fun p o => o p) {}

/-- The form built by `RequestToken`: `grant_type`, then the inline
auth-method switch (whose only case is `client_secret_post`), then the
conditional `redirect_uri` and `code`. -/
def requestTokenForm (cconfig : ClientConfig) (params : RequestTokenParams) :
    Form :=
  let f : Form := [("grant_type", cconfig.GrantType)]
  let f :=
    if cconfig.AuthMethod = ClientSecretPostAuthMethod then
      formSet (formSet f "client_id" cconfig.ClientID)
        "client_secret" cconfig.ClientSecret
    else f
  let f :=
    if params.RedirectURL ≠ "" then formSet f "redirect_uri" params.RedirectURL
    else f
  if params.Code ≠ "" then formSet f "code" params.Code else f

/-- The outbound transport request `RequestToken` builds before `hc.Do`:
the form body, the endpoint the POST goes to (always
`sconfig.TokenEndpoint`), the Basic-auth credentials set exactly for
`client_secret_basic`, and the content type. -/
structure PreparedTokenRequest where
  Form : Form
  Endpoint : String
  Method : String
  BasicAuth : Option (String × String)
  ContentType : String
deriving Repr, DecidableEq

def requestTokenPrepare (cconfig : ClientConfig) (sconfig : ServerConfig)
    (opts : List RequestTokenOption) : PreparedTokenRequest :=
  let params := applyOptions opts
  { Form := requestTokenForm cconfig params,
    Endpoint := sconfig.TokenEndpoint,
    Method := "POST",
    BasicAuth :=
      if cconfig.AuthMethod = ClientSecretBasicAuthMethod then
        some (cconfig.ClientID, cconfig.ClientSecret)
      else none,
    ContentType := "application/x-www-form-urlencoded" }

/-- The distinct failure classes `RequestToken` returns. -/
inductive TokenError where
  /-- non-200 status: `ParseError(resp)`, a structured provider error. -/
  | provider (e : Error)
  /-- `hc.Do` failed: transport error returned as-is. -/
  | transport (e : GoError)
  /-- `"failed to read exchange response body"`. -/
  | readBody (e : GoError)
  /-- `"failed to parse exchange response"` wrapping the JSON error. -/
  | jsonDecode (e : GoError)
deriving Repr, DecidableEq

/-- What `hc.Do` produced: status code and body. -/
structure HTTPResponse where
  StatusCode : Nat
  Body : String
deriving Repr, DecidableEq

/-- The response-handling tail of `RequestToken` (after `hc.Do` succeeded),
parametrised by the JSON decoder and the provider-error parser: non-200 goes
to `ParseError`, 200 with decodable JSON yields the response, 200 with
malformed JSON yields a decode error; the `TokenResponse` value accompanying
any error is the zero value. -/
def requestTokenHandleResponse (unmarshal : String → Except GoError TokenResponse)
    (parseErr : String → Error) (resp : HTTPResponse) :
    TokenResponse × Option TokenError :=
  if resp.StatusCode ≠ 200 then
    (zeroTokenResponse, some (TokenError.provider (parseErr resp.Body)))
  else
    match unmarshal resp.Body with
    | Except.ok tr => (tr, none)
    | Except.error e => (zeroTokenResponse, some (TokenError.jsonDecode e))

/-- `RequestToken` end to end, with the HTTP round trip as an oracle:
prepare the transport request, perform it, handle the response. -/
def requestToken (unmarshal : String → Except GoError TokenResponse)
    (parseErr : String → Error)
    (httpDo : PreparedTokenRequest → Except GoError HTTPResponse)
    (cconfig : ClientConfig) (sconfig : ServerConfig)
    (opts : List RequestTokenOption) :
    PreparedTokenRequest × TokenResponse × Option TokenError :=
  let pr := requestTokenPrepare cconfig sconfig opts
  match httpDo pr with
  | Except.error e => (pr, zeroTokenResponse, some (TokenError.transport e))
  | Except.ok resp =>
    let (tr, te) := requestTokenHandleResponse unmarshal parseErr resp
    (pr, tr, te)

/-- Keys present in a form. -/
def formKeys (f : Form) : List String := f.map (fun kv => kv.1)

/-! ### Concrete fixtures used by witnesses and counterexamples -/

/-- A signer oracle whose results are all-zero (no error). -/
def signW : SignerKind → SignResult := fun _ => {}

def hcW : HTTPClient := {}

def scW : ServerConfig := {}

def ccPostW : ClientConfig :=
  { ClientID := "cid", ClientSecret := "sec",
    AuthMethod := ClientSecretPostAuthMethod }

def ccTLSW : ClientConfig :=
  { ClientID := "cid", AuthMethod := TLSClientAuthMethod }

/-- Client config for the mutual-TLS counterexample to the
RequestToken/AuthenticateClient refinement. -/
def ccTLS1 : ClientConfig :=
  { ClientID := "cid", ClientSecret := "sec",
    GrantType := ClientCredentialsGrantType,
    AuthMethod := TLSClientAuthMethod }

def scTLS1 : ServerConfig :=
  { TokenEndpoint := "https://as.example/token",
    MTLSTokenEndpoint := "https://mtls.example/token" }

/-- The request `RequestToken` has built just before its auth-method switch:
only the `grant_type` field. -/
def baseTLS1 : Request := { Form := [("grant_type", ClientCredentialsGrantType)] }

/-- go-jose oracle for the idempotence counterexample: nothing is encrypted,
`"tok1"` is the only signed token, and its verified claims contain a
string-valued `response` entry pointing at an unparseable value. -/
def joseCex : JoseOps :=
  { parseSignedAndEncrypted := fun _ => Except.error "not encrypted",
    parseSigned := fun s =>
      if s = "tok1" then Except.ok "T1" else Except.error "bad token",
    decrypt := fun _ _ => Except.error "no",
    claims := fun t _ =>
      if t = "T1" then Except.ok [("response", JValue.str "inner")]
      else Except.error "bad sig" }

/-- Inbound request carrying the JARM response `tok1` in its URL query. -/
def reqCex : Request :=
  { Method := "GET", URL := some ⟨"http://cb", [("response", "tok1")]⟩ }

/-- `reqCex` after a successful first verification. -/
def reqCexVerified : Request :=
  { reqCex with JARM := [("response", JValue.str "inner")] }

/-- go-jose oracle on which every parse fails. -/
def joseFailAll : JoseOps :=
  { parseSignedAndEncrypted := fun _ => Except.error "encrypted parse failed",
    parseSigned := fun _ => Except.error "signed parse failed",
    decrypt := fun _ _ => Except.error "decrypt failed",
    claims := fun _ _ => Except.error "verify failed" }

/-- go-jose oracle where `"tok"` is a valid signed-only token with claims
`code`/`state` (no `response` entry). -/
def joseOkSigned : JoseOps :=
  { parseSignedAndEncrypted := fun _ => Except.error "not encrypted",
    parseSigned := fun s =>
      if s = "tok" then Except.ok "T" else Except.error "bad token",
    decrypt := fun _ _ => Except.error "no",
    claims := fun t k =>
      if t = "T" ∧ k = "K" then
        Except.ok [("code", JValue.str "abc123"), ("state", JValue.str "st")]
      else Except.error "bad sig" }

/-- Inbound request carrying the JARM response `tok` in its URL query. -/
def reqTok : Request :=
  { Method := "GET", URL := some ⟨"http://cb", [("response", "tok")]⟩ }

/-- Callback URL carrying a provider error. -/
def uErrW : URL :=
  ⟨"http://localhost:9876/callback",
   [("error", "access_denied"), ("error_description", "D")]⟩

/-- Callback URL carrying an authorization code. -/
def uCodeW : URL := ⟨"http://localhost:9876/callback", [("code", "abc123")]⟩

/-- A URL parser oracle that accepts everything verbatim. -/
def parseURLOkW : String → Except GoError URL := fun s => Except.ok ⟨s, []⟩

/-- An injective identifier stream: `n` copies of `a`. -/
def genW : UUIDGen := { gen := fun n => String.mk (List.replicate n 'a'), ctr := 0 }

/-- The URL built by the first `requestAuthorization` call on `genW`. -/
def u1W : URL :=
  { base := "",
    query := [("client_id", "cid"), ("response_type", "code"),
              ("redirect_uri", "http://127.0.0.1:9876/callback"),
              ("state", ""), ("nonce", "a")] }

/-- The URL built by the second `requestAuthorization` call on `genW`. -/
def u2W : URL :=
  { base := "",
    query := [("client_id", "cid"), ("response_type", "code"),
              ("redirect_uri", "http://127.0.0.1:9876/callback"),
              ("state", "aa"), ("nonce", "aaa")] }

def r1W : Request := { Method := "GET", URL := some u1W }

def r2W : Request := { Method := "GET", URL := some u2W }

/-- The five query parameters `RequestAuthorization` emits. -/
def authQuery (cconfig : ClientConfig) (addr st non : String) : Form :=
  [("client_id", cconfig.ClientID), ("response_type", "code"),
   ("redirect_uri", "http://" ++ addr ++ "/callback"),
   ("state", st), ("nonce", non)]

/-- The successful result of `RequestAuthorization`. -/
def authRequest (u : URL) (cconfig : ClientConfig) (addr st non : String) :
    Request :=
  { Method := "GET",
    URL := some { u with query := authQuery cconfig addr st non } }

/-- The URL/form fallback part of `(*Request).Get` (everything after the
claim-map type assertion has failed). -/
def urlFormLookup (r : Request) (key : String) : Option String :=
  match r.URL with
  | none => none
  | some u =>
    let v := formGet u.query key
    if v ≠ "" then some v else some (formGet r.Form key)

theorem formGet_formSet_self (f : Form) (key value : String) :
    formGet (formSet f key value) key = value := by
  induction f with
  | nil => simp [formSet, formGet]
  | cons a f ih =>
    by_cases h : a.1 = key
    · simpa [formSet, List.filter_cons, h] using ih
    · simpa [formSet, List.filter_cons, h, formGet] using ih

theorem formGet_formSet_other (f : Form) (key value k : String) (h : k ≠ key) :
    formGet (formSet f key value) k = formGet f k := by
  induction f with
  | nil => simp [formSet, formGet, Ne.symm h]
  | cons a f ih =>
    by_cases ha : a.1 = key
    · simpa [formSet, List.filter_cons, ha, formGet, Ne.symm h] using ih
    · by_cases hak : a.1 = k
      · simp [formSet, List.filter_cons, ha, formGet, hak, h]
      · simpa [formSet, List.filter_cons, ha, formGet, hak] using ih

theorem formKeys_formSet (f : Form) (key value k : String) :
    k ∈ formKeys (formSet f key value) ↔ k = key ∨ k ∈ formKeys f := by
  simp only [formKeys, formSet, List.map_append, List.mem_append, List.map_cons,
    List.map_nil, List.mem_singleton, List.mem_map, List.mem_filter]
  constructor
  · rintro (⟨kv, ⟨hmem, _⟩, hk⟩ | hk)
    · exact Or.inr ⟨kv, hmem, hk⟩
    · exact Or.inl hk
  · rintro (hk | ⟨kv, hmem, hk⟩)
    · exact Or.inr hk
    · by_cases hkey : kv.1 = key
      · exact Or.inr (hk ▸ hkey)
      · exact Or.inl ⟨kv, ⟨hmem, by simpa using hkey⟩, hk⟩

/-- C4: `AuthenticateClient` sets exactly the fields of the configured
method and no others; `client_secret_basic` and unknown methods are no-ops;
the JWT methods (on signing success) set only the client-assertion fields
plus the ephemeral `Key`; the TLS methods set only `client_id` and the
certificate and switch to the mutual-TLS endpoint; exactly one branch
applies per call. -/
theorem authenticateClient_exact_fields
    (sign : SignerKind → SignResult) (hc : HTTPClient) (r : Request)
    (endpoint mtlsEndpoint : String) (cconfig : ClientConfig)
    (sconfig : ServerConfig) :
    (cconfig.AuthMethod = ClientSecretPostAuthMethod →
      (authenticateClient sign hc r endpoint mtlsEndpoint cconfig sconfig) =
        ({ r with Form := formSet (formSet r.Form "client_id" cconfig.ClientID)
                    "client_secret" cconfig.ClientSecret }, endpoint, none) ∧
      formGet (authenticateClient sign hc r endpoint mtlsEndpoint cconfig
        sconfig).1.Form "client_id" = cconfig.ClientID ∧
      formGet (authenticateClient sign hc r endpoint mtlsEndpoint cconfig
        sconfig).1.Form "client_secret" = cconfig.ClientSecret ∧
      (∀ k, k ≠ "client_id" → k ≠ "client_secret" →
        formGet (authenticateClient sign hc r endpoint mtlsEndpoint cconfig
          sconfig).1.Form k = formGet r.Form k) ∧
      (∀ k, k ∈ formKeys (authenticateClient sign hc r endpoint mtlsEndpoint
          cconfig sconfig).1.Form ↔
        k = "client_id" ∨ k = "client_secret" ∨ k ∈ formKeys r.Form)) ∧
    (cconfig.AuthMethod = ClientSecretBasicAuthMethod →
      (authenticateClient sign hc r endpoint mtlsEndpoint cconfig sconfig) =
        (r, endpoint, none)) ∧
    (cconfig.AuthMethod = ClientSecretJwtAuthMethod →
      (sign SignerKind.secretSigner).err = none →
      (authenticateClient sign hc r endpoint mtlsEndpoint cconfig sconfig) =
        ({ r with Key := (sign SignerKind.secretSigner).key,
                  Form := formSet (formSet r.Form "client_assertion_type"
                            JwtBearerClientAssertion)
                            "client_assertion"
                            (sign SignerKind.secretSigner).assertion },
         endpoint, none) ∧
      (∀ k, k ≠ "client_assertion_type" → k ≠ "client_assertion" →
        formGet (authenticateClient sign hc r endpoint mtlsEndpoint cconfig
          sconfig).1.Form k = formGet r.Form k) ∧
      (∀ k, k ∈ formKeys (authenticateClient sign hc r endpoint mtlsEndpoint
          cconfig sconfig).1.Form ↔
        k = "client_assertion_type" ∨ k = "client_assertion" ∨
          k ∈ formKeys r.Form)) ∧
    (cconfig.AuthMethod = PrivateKeyJwtAuthMethod →
      (sign SignerKind.jwkSigner).err = none →
      (authenticateClient sign hc r endpoint mtlsEndpoint cconfig sconfig) =
        ({ r with Key := (sign SignerKind.jwkSigner).key,
                  Form := formSet (formSet r.Form "client_assertion_type"
                            JwtBearerClientAssertion)
                            "client_assertion"
                            (sign SignerKind.jwkSigner).assertion },
         endpoint, none)) ∧
    (cconfig.AuthMethod = TLSClientAuthMethod ∨
        cconfig.AuthMethod = SelfSignedTLSAuthMethod →
      (authenticateClient sign hc r endpoint mtlsEndpoint cconfig
        sconfig).2.1 = mtlsEndpoint ∧
      (authenticateClient sign hc r endpoint mtlsEndpoint cconfig
        sconfig).2.2 = none ∧
      formGet (authenticateClient sign hc r endpoint mtlsEndpoint cconfig
        sconfig).1.Form "client_id" = cconfig.ClientID ∧
      (∀ k, k ≠ "client_id" →
        formGet (authenticateClient sign hc r endpoint mtlsEndpoint cconfig
          sconfig).1.Form k = formGet r.Form k) ∧
      (∀ k, k ∈ formKeys (authenticateClient sign hc r endpoint mtlsEndpoint
          cconfig sconfig).1.Form ↔ k = "client_id" ∨ k ∈ formKeys r.Form) ∧
      (authenticateClient sign hc r endpoint mtlsEndpoint cconfig
        sconfig).1.Key = r.Key ∧
      (authenticateClient sign hc r endpoint mtlsEndpoint cconfig
        sconfig).1.Method = r.Method ∧
      (authenticateClient sign hc r endpoint mtlsEndpoint cconfig
        sconfig).1.URL = r.URL ∧
      (authenticateClient sign hc r endpoint mtlsEndpoint cconfig
        sconfig).1.JARM = r.JARM ∧
      (∀ pc, hc.transportLeaf = some pc →
        (authenticateClient sign hc r endpoint mtlsEndpoint cconfig
          sconfig).1.Cert = pc) ∧
      (hc.transportLeaf = none →
        (authenticateClient sign hc r endpoint mtlsEndpoint cconfig
          sconfig).1.Cert = r.Cert)) ∧
    (cconfig.AuthMethod ≠ ClientSecretPostAuthMethod →
      cconfig.AuthMethod ≠ ClientSecretJwtAuthMethod →
      cconfig.AuthMethod ≠ PrivateKeyJwtAuthMethod →
      cconfig.AuthMethod ≠ TLSClientAuthMethod →
      cconfig.AuthMethod ≠ SelfSignedTLSAuthMethod →
      (authenticateClient sign hc r endpoint mtlsEndpoint cconfig sconfig) =
        (r, endpoint, none)) := by
  refine ⟨fun hm => ?_, fun hm => ?_, fun hm hs => ?_, fun hm hs => ?_,
    fun hm => ?_, fun h1 h2 h3 h4 h5 => ?_⟩
  · refine ⟨?_, ?_, ?_, ?_, ?_⟩ <;>
      simp [authenticateClient, hm, ClientSecretPostAuthMethod,
        formGet_formSet_self,
        formGet_formSet_other _ _ _ _ (by decide : "client_id" ≠ "client_secret")]
    · intro k hk1 hk2
      rw [formGet_formSet_other _ _ _ _ hk2, formGet_formSet_other _ _ _ _ hk1]
    · intro k
      simp [formKeys_formSet]
      tauto
  · simp [authenticateClient, hm, ClientSecretBasicAuthMethod,
      ClientSecretPostAuthMethod, ClientSecretJwtAuthMethod,
      PrivateKeyJwtAuthMethod, TLSClientAuthMethod, SelfSignedTLSAuthMethod]
  · have h : (authenticateClient sign hc r endpoint mtlsEndpoint cconfig sconfig) =
        ({ r with Key := (sign SignerKind.secretSigner).key,
                  Form := formSet (formSet r.Form "client_assertion_type"
                            JwtBearerClientAssertion)
                            "client_assertion"
                            (sign SignerKind.secretSigner).assertion },
         endpoint, none) := by
      simp [authenticateClient, hm, ClientSecretJwtAuthMethod,
        ClientSecretPostAuthMethod, hs]
    refine ⟨h, ?_, ?_⟩
    · intro k hk1 hk2
      simp only [h]
      rw [formGet_formSet_other _ _ _ _ hk2, formGet_formSet_other _ _ _ _ hk1]
    · intro k
      simp only [h]
      simp [formKeys_formSet]
      tauto
  · simp [authenticateClient, hm, PrivateKeyJwtAuthMethod,
      ClientSecretPostAuthMethod, ClientSecretJwtAuthMethod, hs]
  · have hpost : cconfig.AuthMethod ≠ ClientSecretPostAuthMethod := by
      rcases hm with hm | hm <;> simp [hm, TLSClientAuthMethod,
        SelfSignedTLSAuthMethod, ClientSecretPostAuthMethod]
    have hcs : cconfig.AuthMethod ≠ ClientSecretJwtAuthMethod := by
      rcases hm with hm | hm <;> simp [hm, TLSClientAuthMethod,
        SelfSignedTLSAuthMethod, ClientSecretJwtAuthMethod]
    have hpk : cconfig.AuthMethod ≠ PrivateKeyJwtAuthMethod := by
      rcases hm with hm | hm <;> simp [hm, TLSClientAuthMethod,
        SelfSignedTLSAuthMethod, PrivateKeyJwtAuthMethod]
    cases hleaf : hc.transportLeaf with
    | some pc =>
      refine ⟨?_, ?_, ?_, ?_, ?_, ?_, ?_, ?_, ?_, ?_, ?_⟩ <;>
        simp [authenticateClient, hpost, hcs, hpk, hm, hleaf,
          formGet_formSet_self]
      · intro k hk
        rw [formGet_formSet_other _ _ _ _ hk]
      · intro k
        simp [formKeys_formSet]
    | none =>
      refine ⟨?_, ?_, ?_, ?_, ?_, ?_, ?_, ?_, ?_, ?_, ?_⟩ <;>
        simp [authenticateClient, hpost, hcs, hpk, hm, hleaf,
          formGet_formSet_self]
      · intro k hk
        rw [formGet_formSet_other _ _ _ _ hk]
      · intro k
        simp [formKeys_formSet]
  · simp [authenticateClient, h1, h2, h3, h4, h5]

/-- Witness for the field-exactness theorem: the post branch at a concrete
config, and the endpoint substitution of the TLS branch. -/
theorem authenticateClient_exact_fields_witness :
    (authenticateClient signW hcW {} "https://as.example/token"
        "https://mtls.example/token" ccPostW scW) =
      ({ Form := formSet (formSet [] "client_id" "cid") "client_secret" "sec" },
       "https://as.example/token", none) ∧
    (authenticateClient signW hcW {} "https://as.example/token"
        "https://mtls.example/token" ccTLSW scW).2.1 =
      "https://mtls.example/token" :=
  ⟨((authenticateClient_exact_fields signW hcW {} "https://as.example/token"
      "https://mtls.example/token" ccPostW scW).1 rfl).1,
   ((authenticateClient_exact_fields signW hcW {} "https://as.example/token"
      "https://mtls.example/token" ccTLSW scW).2.2.2.2.1 (Or.inl rfl)).1⟩

/-- C2 counterexample: `WaitForCallback` registers its handler through the
process-wide default mux; a second invocation at a *distinct* address still
hits a duplicate registration of `/callback` and panics (`none`), so the
invocations are not independent. -/
theorem waitForCallback_second_invocation_panics :
    waitForCallbackRegistration "127.0.0.1:9876" [] = some ["/callback"] ∧
    waitForCallbackRegistration "127.0.0.1:9877" ["/callback"] = none := by
  decide

/-- C2 amended: each invocation builds its own server value, but handler
registration goes through the process-wide default table: a first
registration (from a clean table) succeeds, and any later invocation —
regardless of its address — panics on the duplicate `/callback` pattern. -/
theorem waitForCallback_registration_global (addr addr2 : String)
    (registered : List String) :
    ("/callback" ∉ registered →
      waitForCallbackRegistration addr registered =
        some ("/callback" :: registered)) ∧
    ("/callback" ∈ registered →
      waitForCallbackRegistration addr2 registered = none) := by
  constructor <;> intro h <;>
    simp [waitForCallbackRegistration, muxHandleFunc, h]

/-- Witness: first registration succeeds, repeated registration panics. -/
theorem waitForCallback_registration_global_witness :
    waitForCallbackRegistration "127.0.0.1:1" [] = some ["/callback"] ∧
    waitForCallbackRegistration "127.0.0.1:2" ["/callback"] = none :=
  ⟨(waitForCallback_registration_global "127.0.0.1:1" "x" []).1 (by decide),
   (waitForCallback_registration_global "y" "127.0.0.1:2" ["/callback"]).2
     (by decide)⟩

/-- C8: the callback handler returns the captured method and URL; an `error`
query parameter yields the structured Error and HTTP 400, otherwise no error
and HTTP 200 with the redirect's query preserved in the returned request. -/
theorem waitForCallback_callback_responses (method : String) (u : URL) :
    ((callbackHandler method u).request.Method = method ∧
     (callbackHandler method u).request.URL = some u) ∧
    (formGet u.query "error" ≠ "" →
      (callbackHandler method u).err = some
        { ErrorCode := formGet u.query "error",
          Description := formGet u.query "error_description",
          Hint := formGet u.query "error_hint",
          TraceID := formGet u.query "trace_id" } ∧
      (callbackHandler method u).status = 400) ∧
    (formGet u.query "error" = "" →
      (callbackHandler method u).err = none ∧
      (callbackHandler method u).status = 200) := by
  by_cases h : formGet u.query "error" = "" <;> simp [callbackHandler, h]

/-- Witness for the callback handler at the spec's two example redirects. -/
theorem waitForCallback_callback_responses_witness :
    ((callbackHandler "GET" uErrW).err = some
        { ErrorCode := "access_denied", Description := "D",
          Hint := "", TraceID := "" } ∧
     (callbackHandler "GET" uErrW).status = 400) ∧
    ((callbackHandler "GET" uCodeW).err = none ∧
     (callbackHandler "GET" uCodeW).status = 200) :=
  ⟨(waitForCallback_callback_responses "GET" uErrW).2.1 (by decide),
   (waitForCallback_callback_responses "GET" uCodeW).2.2 (by decide)⟩

/-- If the claim map holds a string for the key, `Get` answers from it. -/
theorem get_of_claim_str (r : Request) (key s : String)
    (h : claimGet r.JARM key = some (JValue.str s)) : r.get key = some s := by
  simp [Request.get, h]

/-- With a nil URL and no string claim, `Get` dereferences the nil URL. -/
theorem get_none_of_url_none (r : Request) (key : String)
    (hurl : r.URL = none)
    (h : ∀ s, claimGet r.JARM key ≠ some (JValue.str s)) :
    r.get key = none := by
  unfold Request.get
  cases hc : claimGet r.JARM key with
  | none => simp [hurl]
  | some v =>
    cases v with
    | str s => exact absurd hc (h s)
    | num n => simp [hurl]
    | jbool b => simp [hurl]
    | jnull => simp [hurl]

/-- C10: `Get` is total only when `URL` is non-nil: a string-valued claim is
returned without touching the URL, but with a nil URL and no such claim
`Get` — and therefore `ParseJARM`, which calls `Get("response")` before
resetting the claim map — dereferences the nil pointer (modelled `none`). -/
theorem request_get_nil_url_panics :
    (∀ (r : Request) (key s : String),
      claimGet r.JARM key = some (JValue.str s) → r.get key = some s) ∧
    (∀ (r : Request) (key : String), r.URL = none →
      (∀ s, claimGet r.JARM key ≠ some (JValue.str s)) →
      r.get key = none) ∧
    (∀ (ops : JoseOps) (r : Request) (sk ek : Option KeyMaterial),
      r.URL = none →
      (∀ s, claimGet r.JARM "response" ≠ some (JValue.str s)) →
      parseJARM ops r sk ek = none) := by
  refine ⟨get_of_claim_str, get_none_of_url_none, ?_⟩
  intro ops r sk ek hurl h
  unfold parseJARM
  rw [get_none_of_url_none r "response" hurl h]

/-- Witness: a request with a string `response` claim and no URL is read from
the claim map; one without the claim panics inside `ParseJARM`. -/
theorem request_get_nil_url_panics_witness :
    Request.get { JARM := [("response", JValue.str "v")] } "response" =
      some "v" ∧
    Request.get ({} : Request) "response" = none ∧
    parseJARM joseFailAll ({} : Request) none none = none :=
  ⟨request_get_nil_url_panics.1 { JARM := [("response", JValue.str "v")] }
      "response" "v" (by decide),
   request_get_nil_url_panics.2.1 ({} : Request) "response" rfl
      (fun s h => by simp [claimGet] at h),
   request_get_nil_url_panics.2.2 joseFailAll ({} : Request) none none rfl
      (fun s h => by simp [claimGet] at h)⟩

/-! ### JARM helper lemmas -/

theorem get_eq_urlFormLookup_of_nonstr (r : Request) (key : String)
    (h : ∀ s, claimGet r.JARM key ≠ some (JValue.str s)) :
    r.get key = urlFormLookup r key := by
  unfold Request.get urlFormLookup
  cases hc : claimGet r.JARM key with
  | none => rfl
  | some v =>
    cases v with
    | str s => exact absurd hc (h s)
    | num n => rfl
    | jbool b => rfl
    | jnull => rfl

theorem parseJARMFinish_err_same (ops : JoseOps) (r : Request) (tok : Token)
    (sk : Option KeyMaterial) (r' : Request) (e : JARMError)
    (h : parseJARMFinish ops r tok sk = (r', some e)) : r' = r := by
  cases hskc : sk with
  | none =>
    rw [hskc] at h
    simp only [parseJARMFinish, Prod.mk.injEq] at h
    exact h.1.symm
  | some k =>
    rw [hskc] at h
    cases hcl : ops.claims tok k with
    | ok cm => simp [parseJARMFinish, hcl] at h
    | error ee =>
      simp only [parseJARMFinish, hcl, Prod.mk.injEq] at h
      exact h.1.symm

theorem parseJARMFinish_ok_shape (ops : JoseOps) (r : Request) (tok : Token)
    (sk : Option KeyMaterial) (r' : Request)
    (h : parseJARMFinish ops r tok sk = (r', none)) :
    ∃ k cm, sk = some k ∧ ops.claims tok k = Except.ok cm ∧
      r' = { r with JARM := cm } := by
  cases hskc : sk with
  | none => rw [hskc] at h; simp [parseJARMFinish] at h
  | some k =>
    rw [hskc] at h
    cases hcl : ops.claims tok k with
    | ok cm =>
      simp only [parseJARMFinish, hcl, Prod.mk.injEq] at h
      exact ⟨k, cm, rfl, hcl, h.1.symm⟩
    | error ee => simp [parseJARMFinish, hcl] at h

/-- Every error return of `ParseJARM` leaves the claim map empty. -/
theorem parseJARM_err_jarm_empty (ops : JoseOps) (r : Request)
    (sk ek : Option KeyMaterial) (r' : Request) (e : JARMError)
    (hres : parseJARM ops r sk ek = some (r', some e)) : r'.JARM = [] := by
  cases hget : r.get "response" with
  | none => simp [parseJARM, hget] at hres
  | some response =>
    simp only [parseJARM, hget] at hres
    by_cases hne : response = ""
    · rw [if_pos hne] at hres
      simp at hres
    · rw [if_neg hne] at hres
      cases h1 : ops.parseSignedAndEncrypted response with
      | ok nt =>
        simp only [h1] at hres
        cases ek with
        | some ekk =>
          cases hdec : ops.decrypt nt ekk with
          | ok tok =>
            simp only [hdec, Option.some.injEq] at hres
            rw [parseJARMFinish_err_same ops _ tok sk r' e hres]
          | error ed =>
            simp only [hdec, Option.some.injEq, Prod.mk.injEq] at hres
            rw [← hres.1]
        | none =>
          simp only [Option.some.injEq, Prod.mk.injEq] at hres
          rw [← hres.1]
      | error e1 =>
        simp only [h1] at hres
        cases h2 : ops.parseSigned response with
        | ok tok =>
          simp only [h2, Option.some.injEq] at hres
          rw [parseJARMFinish_err_same ops _ tok sk r' e hres]
        | error e2 =>
          simp only [h2, Option.some.injEq, Prod.mk.injEq] at hres
          rw [← hres.1]

/-- Every successful non-empty `ParseJARM` run went through a verified
claims decode: the final request is the original with its claim map
replaced by the decoded claims. -/
theorem parseJARM_ok_shape (ops : JoseOps) (r : Request)
    (sk ek : Option KeyMaterial) (r' : Request) (response : String)
    (hget : r.get "response" = some response) (hne : response ≠ "")
    (hres : parseJARM ops r sk ek = some (r', none)) :
    ∃ tok k cm, sk = some k ∧ ops.claims tok k = Except.ok cm ∧
      r' = { r with JARM := cm } := by
  simp only [parseJARM, hget] at hres
  rw [if_neg hne] at hres
  cases h1 : ops.parseSignedAndEncrypted response with
  | ok nt =>
    simp only [h1] at hres
    cases ek with
    | some ekk =>
      cases hdec : ops.decrypt nt ekk with
      | ok tok =>
        simp only [hdec, Option.some.injEq] at hres
        obtain ⟨k, cm, hsk, hcl, hr⟩ :=
          parseJARMFinish_ok_shape ops _ tok sk r' hres
        exact ⟨tok, k, cm, hsk, hcl, hr⟩
      | error ed => simp only [hdec] at hres; simp at hres
    | none => simp at hres
  | error e1 =>
    simp only [h1] at hres
    cases h2 : ops.parseSigned response with
    | ok tok =>
      simp only [h2, Option.some.injEq] at hres
      obtain ⟨k, cm, hsk, hcl, hr⟩ :=
        parseJARMFinish_ok_shape ops _ tok sk r' hres
      exact ⟨tok, k, cm, hsk, hcl, hr⟩
    | error e2 => simp only [h2] at hres; simp at hres

/-- C3: `ParseJARM` tries the nested parse, falls back to the flat parse,
and fails closed: both parse failures are preserved in the combined error;
a successful nested parse without an encryption key is a hard error (for
every signing key, before any claims verification); a missing signing key
is a hard error on both token paths; and a success means the claims were
verified against a supplied signing key. -/
theorem parseJARM_fails_closed (ops : JoseOps) (r : Request)
    (sk ek : Option KeyMaterial) (response : String)
    (hget : r.get "response" = some response) (hne : response ≠ "") :
    (∀ e1 e2, ops.parseSignedAndEncrypted response = Except.error e1 →
      ops.parseSigned response = Except.error e2 →
      parseJARM ops r sk ek =
        some ({ r with JARM := [] },
          some (JARMError.combinedParse e1 e2))) ∧
    (∀ nt, ops.parseSignedAndEncrypted response = Except.ok nt → ek = none →
      parseJARM ops r sk ek =
        some ({ r with JARM := [] }, some JARMError.noEncryptionKey)) ∧
    (sk = none →
      (∀ nt ekk tok, ops.parseSignedAndEncrypted response = Except.ok nt →
        ek = some ekk → ops.decrypt nt ekk = Except.ok tok →
        parseJARM ops r sk ek =
          some ({ r with JARM := [] }, some JARMError.noSigningKey)) ∧
      (∀ e1 tok, ops.parseSignedAndEncrypted response = Except.error e1 →
        ops.parseSigned response = Except.ok tok →
        parseJARM ops r sk ek =
          some ({ r with JARM := [] }, some JARMError.noSigningKey))) ∧
    (∀ r', parseJARM ops r sk ek = some (r', none) →
      ∃ tok k, sk = some k ∧ ops.claims tok k = Except.ok r'.JARM) := by
  refine ⟨?_, ?_, fun hsk => ⟨?_, ?_⟩, ?_⟩
  · intro e1 e2 h1 h2
    simp [parseJARM, hget, hne, h1, h2]
  · intro nt h1 hek
    simp [parseJARM, hget, hne, h1, hek]
  · intro nt ekk tok h1 hek hdec
    simp [parseJARM, hget, hne, h1, hek, hdec, parseJARMFinish, hsk]
  · intro e1 tok h1 h2
    simp [parseJARM, hget, hne, h1, h2, parseJARMFinish, hsk]
  · intro r' hres
    obtain ⟨tok, k, cm, hsk, hcl, hr⟩ :=
      parseJARM_ok_shape ops r sk ek r' response hget hne hres
    refine ⟨tok, k, hsk, ?_⟩
    rw [hr]
    exact hcl

/-- Witness: with both parses failing the combined error is returned; with
only the flat parse succeeding and no signing key, the hard
no-signing-key error is returned. -/
theorem parseJARM_fails_closed_witness :
    parseJARM joseFailAll reqTok none none =
      some ({ reqTok with JARM := [] },
        some (JARMError.combinedParse "encrypted parse failed"
          "signed parse failed")) ∧
    parseJARM joseOkSigned reqTok none none =
      some ({ reqTok with JARM := [] }, some JARMError.noSigningKey) :=
  ⟨(parseJARM_fails_closed joseFailAll reqTok none none "tok" (by decide)
      (by decide)).1 "encrypted parse failed" "signed parse failed" rfl rfl,
   ((parseJARM_fails_closed joseOkSigned reqTok none none "tok" (by decide)
      (by decide)).2.2.1 rfl).2 "not encrypted" "T" rfl rfl⟩

/-- C6: the claim map is reset at the start of verification: an absent
response is a no-op with an empty claim map and no error; every error
return leaves the claim map empty; a success on a present response leaves
the request equal to the input with its claim map wholly replaced by the
verified claims. -/
theorem parseJARM_claim_map_discipline (ops : JoseOps) (r : Request)
    (sk ek : Option KeyMaterial) :
    (r.get "response" = some "" →
      parseJARM ops r sk ek = some ({ r with JARM := [] }, none)) ∧
    (∀ r' e, parseJARM ops r sk ek = some (r', some e) → r'.JARM = []) ∧
    (∀ r' response, r.get "response" = some response → response ≠ "" →
      parseJARM ops r sk ek = some (r', none) →
      ∃ tok k cm, sk = some k ∧ ops.claims tok k = Except.ok cm ∧
        r' = { r with JARM := cm }) := by
  refine ⟨?_, ?_, ?_⟩
  · intro hget0
    simp [parseJARM, hget0]
  · intro r' e hres
    exact parseJARM_err_jarm_empty ops r sk ek r' e hres
  · intro r' response hget hne hres
    exact parseJARM_ok_shape ops r sk ek r' response hget hne hres

/-- Witness: a request with no `response` value is a no-op; a verified one
ends with exactly the token's claims. -/
theorem parseJARM_claim_map_discipline_witness :
    parseJARM joseOkSigned { Method := "GET", URL := some ⟨"http://cb", []⟩ }
      (some "K") none =
      some ({ Method := "GET", URL := some ⟨"http://cb", []⟩ }, none) ∧
    (∃ tok k cm, (some "K" : Option KeyMaterial) = some k ∧
      joseOkSigned.claims tok k = Except.ok cm ∧
      ({ reqTok with JARM :=
          [("code", JValue.str "abc123"), ("state", JValue.str "st")] } :
        Request) = { reqTok with JARM := cm }) :=
  ⟨(parseJARM_claim_map_discipline joseOkSigned
      { Method := "GET", URL := some ⟨"http://cb", []⟩ } (some "K") none).1
      (by decide),
   (parseJARM_claim_map_discipline joseOkSigned reqTok (some "K")
      none).2.2
      { reqTok with JARM :=
          [("code", JValue.str "abc123"), ("state", JValue.str "st")] }
      "tok" (by decide) (by decide) (by decide)⟩

/-- Re-running `ParseJARM` after a success reproduces the same result,
provided neither the original nor the verified claim map shadows the
`response` lookup with a string claim. -/
theorem parseJARM_rerun (ops : JoseOps) (r : Request)
    (sk ek : Option KeyMaterial) (r' : Request)
    (h1 : parseJARM ops r sk ek = some (r', none))
    (hr : ∀ s, claimGet r.JARM "response" ≠ some (JValue.str s))
    (hr' : ∀ s, claimGet r'.JARM "response" ≠ some (JValue.str s)) :
    parseJARM ops r' sk ek = some (r', none) := by
  cases hget : r.get "response" with
  | none => simp [parseJARM, hget] at h1
  | some response =>
    have hUrlForm : urlFormLookup r "response" = some response := by
      rw [← get_eq_urlFormLookup_of_nonstr r "response" hr, hget]
    by_cases hne : response = ""
    · subst hne
      have hr'eq : r' = { r with JARM := [] } := by
        simp only [parseJARM, hget, if_true] at h1
        simp only [Option.some.injEq, Prod.mk.injEq] at h1
        exact h1.1.symm
      subst hr'eq
      have hget' : Request.get { r with JARM := [] } "response" = some "" := by
        rw [get_eq_urlFormLookup_of_nonstr _ "response"
          (by intro s hs; simp [claimGet] at hs)]
        exact hUrlForm
      simp [parseJARM, hget']
    · obtain ⟨tok, k, cm, hsk, hcl, hr'eq⟩ :=
        parseJARM_ok_shape ops r sk ek r' response hget hne h1
      subst hr'eq
      have hget' : Request.get { r with JARM := cm } "response" =
          some response := by
        rw [get_eq_urlFormLookup_of_nonstr _ "response" hr']
        exact hUrlForm
      simp only [parseJARM, hget] at h1
      rw [if_neg hne] at h1
      simp only [parseJARM, hget']
      rw [if_neg hne]
      subst hsk
      cases h1p : ops.parseSignedAndEncrypted response with
      | ok nt =>
        simp only [h1p] at h1 ⊢
        cases ek with
        | some ekk =>
          cases hdec : ops.decrypt nt ekk with
          | ok tok2 =>
            simp only [hdec, parseJARMFinish] at h1 ⊢
            cases hcl2 : ops.claims tok2 k with
            | ok cm2 =>
              simp only [hcl2, Option.some.injEq, Prod.mk.injEq,
                Request.mk.injEq] at h1 ⊢
              simp_all
            | error e => simp [hcl2] at h1
          | error ed => simp [hdec] at h1
        | none => simp at h1
      | error e1 =>
        simp only [h1p] at h1 ⊢
        cases h2p : ops.parseSigned response with
        | ok tok2 =>
          simp only [h2p, parseJARMFinish] at h1 ⊢
          cases hcl2 : ops.claims tok2 k with
          | ok cm2 =>
            simp only [hcl2, Option.some.injEq, Prod.mk.injEq,
              Request.mk.injEq] at h1 ⊢
            simp_all
          | error e => simp [hcl2] at h1
        | error e2 => simp [h2p] at h1

/-- C7 counterexample: on `reqCex` the first verification succeeds and fills
the claim map with a string `response` claim; the second invocation with the
same keys then re-parses that embedded value and fails, leaving a different
(empty) claim map — so the idempotence claim is false as stated. -/
theorem parseJARM_idempotence_cex :
    parseJARM joseCex reqCex (some "K") none =
      some (reqCexVerified, none) ∧
    reqCexVerified.JARM ≠ [] ∧
    parseJARM joseCex reqCexVerified (some "K") none =
      some ({ reqCexVerified with JARM := [] },
        some (JARMError.combinedParse "not encrypted" "bad token")) :=
  ⟨by decide, by decide, by decide⟩

/-- C7 amended: re-invoking `ParseJARM` on an already-verified Request with
the same keys yields the same claim map, *provided* the claim maps involved
do not themselves carry a string-valued `response` entry (which would win
the lookup and be re-parsed); the `response` lookup order is claim map
first, then URL query (if non-empty), then form. -/
theorem parseJARM_idempotent_on_nonresponse_claims :
    (∀ (ops : JoseOps) (r : Request) (sk ek : Option KeyMaterial)
       (r' : Request),
      parseJARM ops r sk ek = some (r', none) →
      (∀ s, claimGet r.JARM "response" ≠ some (JValue.str s)) →
      (∀ s, claimGet r'.JARM "response" ≠ some (JValue.str s)) →
      parseJARM ops r' sk ek = some (r', none)) ∧
    (∀ (r : Request) (key s : String),
      claimGet r.JARM key = some (JValue.str s) → r.get key = some s) ∧
    (∀ (r : Request) (key : String) (u : URL), r.URL = some u →
      (∀ s, claimGet r.JARM key ≠ some (JValue.str s)) →
      formGet u.query key ≠ "" →
      r.get key = some (formGet u.query key)) ∧
    (∀ (r : Request) (key : String) (u : URL), r.URL = some u →
      (∀ s, claimGet r.JARM key ≠ some (JValue.str s)) →
      formGet u.query key = "" →
      r.get key = some (formGet r.Form key)) := by
  refine ⟨parseJARM_rerun, get_of_claim_str, ?_, ?_⟩
  · intro r key u hurl h hq
    rw [get_eq_urlFormLookup_of_nonstr r key h]
    simp [urlFormLookup, hurl, hq]
  · intro r key u hurl h hq
    rw [get_eq_urlFormLookup_of_nonstr r key h]
    simp [urlFormLookup, hurl, hq]

/-- Witness: a verified request whose claims carry no `response` entry
re-verifies to the identical claim map. -/
theorem parseJARM_idempotent_witness :
    parseJARM joseOkSigned
      { reqTok with JARM :=
          [("code", JValue.str "abc123"), ("state", JValue.str "st")] }
      (some "K") none =
      some ({ reqTok with JARM :=
          [("code", JValue.str "abc123"), ("state", JValue.str "st")] },
        none) :=
  parseJARM_idempotent_on_nonresponse_claims.1 joseOkSigned reqTok (some "K")
    none
    { reqTok with JARM :=
        [("code", JValue.str "abc123"), ("state", JValue.str "st")] }
    (by decide) (fun s hs => by simp [reqTok, claimGet] at hs)
    (fun s hs => by simp [claimGet] at hs)

/-- C1 counterexample: with the mutual-TLS method configured,
`RequestToken` posts to the primary token endpoint with no `client_id`
field, while `AuthenticateClient` would substitute the mutual-TLS endpoint
and set `client_id` — so `RequestToken` does not invoke (nor agree with)
the Client Authenticator. -/
theorem requestToken_bypasses_authenticateClient_cex :
    (requestTokenPrepare ccTLS1 scTLS1 []).Endpoint =
      "https://as.example/token" ∧
    (authenticateClient signW hcW baseTLS1 scTLS1.TokenEndpoint
      scTLS1.MTLSTokenEndpoint ccTLS1 scTLS1).2.1 =
      "https://mtls.example/token" ∧
    (requestTokenPrepare ccTLS1 scTLS1 []).Endpoint ≠
      (authenticateClient signW hcW baseTLS1 scTLS1.TokenEndpoint
        scTLS1.MTLSTokenEndpoint ccTLS1 scTLS1).2.1 ∧
    formGet (requestTokenPrepare ccTLS1 scTLS1 []).Form "client_id" = "" ∧
    formGet (authenticateClient signW hcW baseTLS1 scTLS1.TokenEndpoint
      scTLS1.MTLSTokenEndpoint ccTLS1 scTLS1).1.Form "client_id" = "cid" := by
  refine ⟨by decide, by decide, by decide, by decide, by decide⟩

/-- C1 amended: `RequestToken` does not call `AuthenticateClient`; it
inlines only the `client_secret_post` fields and always posts to the
primary token endpoint.  Its form and endpoint coincide with what
`AuthenticateClient` produces exactly for the secret-based and unknown
methods (not the JWT or TLS ones), and Basic auth is applied on the
transport request iff the method is `client_secret_basic`. -/
theorem requestToken_matches_authenticateClient_on_secret_methods
    (sign : SignerKind → SignResult) (hc : HTTPClient)
    (cconfig : ClientConfig) (sconfig : ServerConfig)
    (opts : List RequestTokenOption)
    (h1 : cconfig.AuthMethod ≠ ClientSecretJwtAuthMethod)
    (h2 : cconfig.AuthMethod ≠ PrivateKeyJwtAuthMethod)
    (h3 : cconfig.AuthMethod ≠ TLSClientAuthMethod)
    (h4 : cconfig.AuthMethod ≠ SelfSignedTLSAuthMethod) :
    ((requestTokenPrepare cconfig sconfig opts).Form =
      (let ac := authenticateClient sign hc
         { Form := [("grant_type", cconfig.GrantType)] }
         sconfig.TokenEndpoint sconfig.MTLSTokenEndpoint cconfig sconfig
       let params := applyOptions opts
       let f1 := if params.RedirectURL ≠ "" then
           formSet ac.1.Form "redirect_uri" params.RedirectURL
         else ac.1.Form
       if params.Code ≠ "" then formSet f1 "code" params.Code else f1)) ∧
    (requestTokenPrepare cconfig sconfig opts).Endpoint =
      (authenticateClient sign hc
        { Form := [("grant_type", cconfig.GrantType)] }
        sconfig.TokenEndpoint sconfig.MTLSTokenEndpoint cconfig
        sconfig).2.1 ∧
    ((requestTokenPrepare cconfig sconfig opts).BasicAuth =
        some (cconfig.ClientID, cconfig.ClientSecret) ↔
      cconfig.AuthMethod = ClientSecretBasicAuthMethod) := by
  refine ⟨?_, ?_, ?_⟩
  · by_cases hp : cconfig.AuthMethod = ClientSecretPostAuthMethod
    · simp [requestTokenPrepare, requestTokenForm, authenticateClient, hp]
    · simp [requestTokenPrepare, requestTokenForm, authenticateClient,
        hp, h1, h2, h3, h4]
  · by_cases hp : cconfig.AuthMethod = ClientSecretPostAuthMethod
    · simp [requestTokenPrepare, authenticateClient, hp]
    · simp [requestTokenPrepare, authenticateClient, hp, h1, h2, h3, h4]
  · by_cases hb : cconfig.AuthMethod = ClientSecretBasicAuthMethod
    · simp [requestTokenPrepare, hb]
    · simp [requestTokenPrepare, hb]

/-- Witness: the post method at a concrete config, with an authorization
code option, agrees with the Client Authenticator. -/
theorem requestToken_matches_authenticateClient_witness :
    (requestTokenPrepare ccPostW scTLS1 [withAuthorizationCode "abc123"]).Endpoint =
      (authenticateClient signW hcW { Form := [("grant_type", "")] }
        scTLS1.TokenEndpoint scTLS1.MTLSTokenEndpoint ccPostW scTLS1).2.1 :=
  (requestToken_matches_authenticateClient_on_secret_methods signW hcW
    ccPostW scTLS1 [withAuthorizationCode "abc123"] (by decide) (by decide)
    (by decide) (by decide)).2.1

/-- C5: a non-200 token-endpoint response is parsed as a structured provider
Error with no TokenResponse fields populated; a 200 with valid JSON yields
exactly the provided fields and no error; a 200 with malformed JSON yields
a decode error, a constructor distinct from the transport error. -/
theorem requestToken_response_classification :
    (∀ (unmarshal : String → Except GoError TokenResponse)
       (parseErr : String → Error) (cconfig : ClientConfig)
       (sconfig : ServerConfig) (opts : List RequestTokenOption)
       (resp : HTTPResponse),
      (resp.StatusCode ≠ 200 →
        (requestToken unmarshal parseErr (fun _ => Except.ok resp) cconfig
          sconfig opts).2 =
          (zeroTokenResponse,
            some (TokenError.provider (parseErr resp.Body)))) ∧
      (∀ tr, resp.StatusCode = 200 → unmarshal resp.Body = Except.ok tr →
        (requestToken unmarshal parseErr (fun _ => Except.ok resp) cconfig
          sconfig opts).2 = (tr, none)) ∧
      (∀ e, resp.StatusCode = 200 → unmarshal resp.Body = Except.error e →
        (requestToken unmarshal parseErr (fun _ => Except.ok resp) cconfig
          sconfig opts).2 =
          (zeroTokenResponse, some (TokenError.jsonDecode e)))) ∧
    (∀ e ee, TokenError.jsonDecode e ≠ TokenError.transport ee) ∧
    (requestToken unmarshalTokenResponse goParseError
        (fun _ => Except.ok
          ⟨200, "\x7b\"access_token\":\"T\",\"token_type\":\"Bearer\",\"expires_in\":3600\x7d"⟩)
        ccPostW scW []).2 =
      ({ AccessToken := "T", ExpiresIn := 3600, TokenType := "Bearer" },
        none) ∧
    (requestToken unmarshalTokenResponse goParseError
        (fun _ => Except.ok ⟨400, "\x7b\"error\":\"invalid_grant\"\x7d"⟩)
        ccPostW scW []).2 =
      (zeroTokenResponse,
        some (TokenError.provider { ErrorCode := "invalid_grant" })) ∧
    (requestToken unmarshalTokenResponse goParseError
        (fun _ => Except.ok { StatusCode := 200, Body := "not json" })
        ccPostW scW []).2 =
      (zeroTokenResponse, some (TokenError.jsonDecode "invalid JSON")) := by
  refine ⟨?_, ?_, by decide, by decide, by decide⟩
  · intro unmarshal parseErr cconfig sconfig opts resp
    refine ⟨?_, ?_, ?_⟩
    · intro hne
      simp [requestToken, requestTokenHandleResponse, hne]
    · intro tr h200 hok
      simp [requestToken, requestTokenHandleResponse, h200, hok]
    · intro e h200 herr
      simp [requestToken, requestTokenHandleResponse, h200, herr]
  · intro e ee h
    cases h

/-- Witness: the branch classification applied at a 404 response and at a
200 response with decodable body. -/
theorem requestToken_response_classification_witness :
    (requestToken unmarshalTokenResponse goParseError
        (fun _ => Except.ok { StatusCode := 404, Body := "oops" })
        ccPostW scW []).2 =
      (zeroTokenResponse, some (TokenError.provider (goParseError "oops"))) ∧
    (requestToken unmarshalTokenResponse goParseError
        (fun _ => Except.ok { StatusCode := 200, Body := "\x7b\x7d" })
        ccPostW scW []).2 = ({}, none) :=
  ⟨((requestToken_response_classification.1 unmarshalTokenResponse
      goParseError ccPostW scW [] { StatusCode := 404, Body := "oops" }).1
      (by decide)),
   ((requestToken_response_classification.1 unmarshalTokenResponse
      goParseError ccPostW scW [] { StatusCode := 200, Body := "\x7b\x7d" }).2.1
      {} (by decide) rfl)⟩

/-- C9: `RequestAuthorization` fails exactly when the authorization
endpoint URL is malformed; on success it returns a GET request whose query
holds exactly `client_id`, `response_type=code`, the callback-derived
`redirect_uri`, and the two freshly drawn `state`/`nonce` identifiers; with
an injective identifier stream, two calls with the same inputs emit
distinct `state` and `nonce` values. -/
theorem requestAuthorization_builds_get
    (parseURL : String → Except GoError URL) (g : UUIDGen) (addr : String)
    (cconfig : ClientConfig) (sconfig : ServerConfig) :
    (∀ e, parseURL sconfig.AuthorizationEndpoint = Except.error e →
      (requestAuthorization parseURL g addr cconfig sconfig).1 =
        Except.error ("failed to parse authorization endpoint: " ++ e)) ∧
    (∀ u, parseURL sconfig.AuthorizationEndpoint = Except.ok u →
      (requestAuthorization parseURL g addr cconfig sconfig).1 =
        Except.ok (authRequest u cconfig addr (g.gen g.ctr)
          (g.gen (g.ctr + 1)))) ∧
    (∀ u, parseURL sconfig.AuthorizationEndpoint = Except.ok u →
      ∀ k, k ≠ "client_id" → k ≠ "response_type" → k ≠ "redirect_uri" →
        k ≠ "state" → k ≠ "nonce" →
        ∀ req, (requestAuthorization parseURL g addr cconfig sconfig).1 =
          Except.ok req →
        ∀ uu, req.URL = some uu → formGet uu.query k = "") ∧
    (Function.Injective g.gen →
      ∀ u, parseURL sconfig.AuthorizationEndpoint = Except.ok u →
      ∀ r1 r2,
        (requestAuthorization parseURL g addr cconfig sconfig).1 =
          Except.ok r1 →
        (requestAuthorization parseURL
          (requestAuthorization parseURL g addr cconfig sconfig).2 addr
          cconfig sconfig).1 = Except.ok r2 →
        ∀ u1 u2, r1.URL = some u1 → r2.URL = some u2 →
          formGet u1.query "state" ≠ formGet u2.query "state" ∧
          formGet u1.query "nonce" ≠ formGet u2.query "nonce") := by
  refine ⟨?_, ?_, ?_, ?_⟩
  · intro e h
    simp [requestAuthorization, h]
  · intro u h
    simp [requestAuthorization, h, uuidNew, authQuery, authRequest]
  · intro u h k hk1 hk2 hk3 hk4 hk5 req hreq uu huu
    simp only [requestAuthorization, h, uuidNew, Except.ok.injEq] at hreq
    subst hreq
    simp only [Option.some.injEq] at huu
    subst huu
    simp [formGet, Ne.symm hk1, Ne.symm hk2, Ne.symm hk3, Ne.symm hk4,
      Ne.symm hk5]
  · intro hinj u h r1 r2 h1 h2 u1 u2 hu1 hu2
    simp only [requestAuthorization, h, uuidNew, Except.ok.injEq] at h1 h2
    subst h1
    subst h2
    simp only [Option.some.injEq] at hu1 hu2
    subst hu1
    subst hu2
    constructor <;>
      · simp only [formGet]
        norm_num
        intro heq
        have := hinj heq
        omega

/-- Witness: the two calls on the concrete injective stream `genW` produce
the expected URLs with distinct state and nonce values. -/
theorem requestAuthorization_builds_get_witness :
    (requestAuthorization parseURLOkW genW "127.0.0.1:9876" ccPostW scW).1 =
      Except.ok r1W ∧
    (formGet u1W.query "state" ≠ formGet u2W.query "state" ∧
     formGet u1W.query "nonce" ≠ formGet u2W.query "nonce") := by
  have hinj : Function.Injective genW.gen := by
    intro a b hab
    have hlen := congrArg (fun s : String => s.data.length) hab
    simpa [genW] using hlen
  refine ⟨?_, ?_⟩
  · have h1 := (requestAuthorization_builds_get parseURLOkW genW
      "127.0.0.1:9876" ccPostW scW).2.1 ⟨"", []⟩ rfl
    rw [h1]
    exact congrArg Except.ok (by decide)
  · exact (requestAuthorization_builds_get parseURLOkW genW "127.0.0.1:9876"
      ccPostW scW).2.2.2 hinj ⟨"", []⟩ rfl r1W r2W rfl rfl
      u1W u2W rfl rfl

end OAuth2C
